import Mathlib

/-!
Verification of the text2code mapping-to-PySpark generation pipeline.

This file gives a shallow embedding of the pure logic of the repository:

* `server/services/code_generator.py` — the response post-processing of
  `CodeGenerator.generate_from_volume` (length check, fence stripping);
* `server/services/pyspark_generator.py` — `read_mapping_csv_from_local`
  (CSV parsing and grouping into pipeline descriptors),
  `call_claude_sonnet` (the prioritized response-extraction chain), and the
  source-selection and length-check logic of `generate_pyspark_code`;
* `server/routers/codegen.py` — `generate_pyspark_endpoint` (the step-traced
  orchestrator).

Text is modelled as `List Char`.  Python dynamic values that may or may not
be strings are modelled by `Val`; attributes or dict keys that may be absent
are modelled by `Option`.  I/O (the network call, file reads) is modelled by
passing the already-obtained value as an argument.
-/

/-- Text is modelled as a list of characters (Python `str`). -/
abbrev Txt := List Char

/-- ASCII whitespace recognized by Python `str.strip()` (the inputs in this
repository are ASCII). -/
def isPySpace (c : Char) : Bool :=
  c == (' ' : Char) || c == ('\t' : Char) || c == ('\n' : Char) ||
  c == ('\r' : Char) || c == ('\x0b' : Char) || c == ('\x0c' : Char)

/-- Remove trailing whitespace, as the right half of Python `str.strip()`. -/
def trimR (s : Txt) : Txt := (s.reverse.dropWhile isPySpace).reverse

/-- Python `str.strip()`: remove leading and trailing whitespace. -/
def pyStrip (s : Txt) : Txt := trimR (s.dropWhile isPySpace)

/-- Python `s[n:]` guarded by `s.startswith(pat)`: drop `pat` from the front
if it is a prefix, else return `s` unchanged. -/
def dropLead (pat s : Txt) : Txt :=
  if pat.isPrefixOf s then s.drop pat.length else s

/-- Python `s[:-n]` guarded by `s.endswith(pat)`: drop `pat` from the end if
it is a suffix, else return `s` unchanged. -/
def dropTrail (pat s : Txt) : Txt :=
  if pat.isSuffixOf s then s.take (s.length - pat.length) else s

/-- The fence-stripping sanitizer of `CodeGenerator.generate_from_volume`
(`code_generator.py` lines 160-168): `code.strip()`, then drop a leading
three-backtick-python marker, then a leading bare three-backtick marker, then
a trailing three-backtick marker, then `strip()` again. -/
def sanitize (raw : Txt) : Txt :=
  pyStrip (dropTrail (("```").toList)
    (dropLead (("```").toList)
      (dropLead (("```python").toList) (pyStrip raw))))

/-- Errors raised while post-processing a model reply in
`code_generator.py` / `pyspark_generator.py`. -/
inductive GenErr where
  | tooShort
  deriving DecidableEq, Repr

/-- Response post-processing of `CodeGenerator.generate_from_volume`
(`code_generator.py` lines 156-168): raise if the raw text is falsy or its
`strip()` has fewer than 40 characters, otherwise return the fence-stripped
text.  Note the length check uses `code.strip()`, before fence stripping. -/
def generate_from_volume_post (code : Txt) : Except GenErr Txt :=
  if code.isEmpty || (pyStrip code).length < 40 then Except.error GenErr.tooShort
  else Except.ok (sanitize code)

/-- `MIN_RESPONSE_LEN` from `pyspark_generator.py`. -/
def MIN_RESPONSE_LEN : Nat := 40

/-- Response length check of `generate_pyspark_code`
(`pyspark_generator.py` lines 456-463): the crude response is returned
as-is, with no stripping or cleanup, after a bare length check. -/
def generate_pyspark_post (code_text : Txt) : Except GenErr Txt :=
  if code_text.isEmpty || code_text.length < MIN_RESPONSE_LEN then
    Except.error GenErr.tooShort
  else Except.ok code_text

/-! ## Model reply and the response normalizer (`call_claude_sonnet`) -/

/-- A Python dynamic value that a reply field may hold: a string, or a
non-string object carrying only its truthiness. -/
inductive Val where
  | str (s : Txt)
  | other (isTruthy : Bool)
  deriving DecidableEq, Repr

/-- Python truthiness of a `Val` (an empty string is falsy). -/
def truthyVal : Val → Bool
  | Val.str s => !s.isEmpty
  | Val.other t => t

/-- Python truthiness of a possibly-absent value (`None` is falsy). -/
def truthyOptVal : Option Val → Bool
  | none => false
  | some v => truthyVal v

/-- The nested `message` body of a non-streaming choice: its `content`
attribute, possibly `None` (`none`) or a non-string. -/
structure Msg where
  content : Option Val
  deriving DecidableEq, Repr

/-- The first element of a non-streaming reply's `choices`: a possibly
absent nested `message` and a possibly absent direct `text` attribute. -/
structure Choice where
  message : Option Msg
  text : Option Val
  deriving DecidableEq, Repr

/-- A streaming-chunk choice (object shape): the value of
`c0.delta.content` collapsed through `getattr`/`dict.get` (absent `delta`,
absent `content`, and `None` all yield `none`), and the `c0.text`
attribute. -/
structure CChoice where
  deltaContent : Option Val
  text : Option Val
  deriving DecidableEq, Repr

/-- The `delta` entry of a dict-shaped chunk choice: the value under the
key `content`, `none` when the key is absent. -/
structure DDelta where
  content : Option Val
  deriving DecidableEq, Repr

/-- A dict-shaped chunk choice: optional `delta` and `text` keys (`none`
means the key is absent; key-presence, not truthiness, is what the code
tests here). -/
structure DChoice where
  delta : Option DDelta
  text : Option Val
  deriving DecidableEq, Repr

/-- One element yielded by iterating a streaming reply: an object exposing
`choices`, a plain dict, or a chunk whose processing raises (skipped). -/
inductive Chunk where
  | obj (choices : List CChoice)
  | dict (choices : List DChoice)
  | malformed
  deriving DecidableEq, Repr

/-- A model reply of unknown shape (`pyspark_generator.py` lines 258-376):
an optional `choices` attribute, the chunk sequence yielded when the reply
is iterable and not a `str`/`bytes` (`none` otherwise), and `str(resp)`. -/
structure Resp where
  choices : Option (List Choice)
  iterChunks : Option (List Chunk)
  strForm : Txt
  deriving DecidableEq, Repr

/-- Stage-1 extraction (`pyspark_generator.py` lines 271-277): if a nested
`message` is present and its `content` is a non-`None` string, return it;
a non-string `content` falls through. -/
def step1 (c : Choice) : Option Txt :=
  match c.message with
  | some m =>
    match m.content with
    | some (Val.str s) => some s
    | _ => none
  | none => none

/-- Stage-2 extraction (`pyspark_generator.py` lines 279-285): if the first
choice's `text` attribute is not `None` and is a string, return it (note:
the guard is `is not None`, so an empty string is returned). -/
def step2 (c : Choice) : Option Txt :=
  match c.text with
  | some (Val.str s) => some s
  | _ => none

/-- Stages 1-2 (`pyspark_generator.py` lines 262-291): require a non-empty
`choices` list, prefer `message.content`, fall back to `text`. -/
def stage12 (resp : Resp) : Option Txt :=
  match resp.choices with
  | some (first :: _) =>
    match step1 first with
    | some s => some s
    | none => step2 first
  | _ => none

/-- Fragment selected from a possibly-absent value under a truthiness
guard (`if part:` / `if getattr(c0, "text", None):`). -/
def guardTruthy : Option Val → List Val
  | some v => if truthyVal v then [v] else []
  | none => []

/-- Fragment selected from a possibly-absent dict value under a mere
key-presence guard. -/
def guardKey : Option Val → List Val
  | some v => [v]
  | none => []

/-- Fragments contributed by one dict-shaped chunk choice
(`pyspark_generator.py` lines 329-333): delta-content when both keys are
present, else the `text` key. -/
def dchoiceParts (ch : DChoice) : List Val :=
  match ch.delta with
  | some d =>
    match d.content with
    | some v => [v]
    | none => guardKey ch.text
  | none => guardKey ch.text

/-- Fragments contributed by one streaming chunk (`pyspark_generator.py`
lines 308-337): the object shape reads only the first choice and may
contribute both a truthy delta-content and a truthy `text`; the dict shape
iterates every choice; a chunk that raises contributes nothing. -/
def chunkParts : Chunk → List Val
  | Chunk.obj [] => []
  | Chunk.obj (c0 :: _) => guardTruthy c0.deltaContent ++ guardTruthy c0.text
  | Chunk.dict dcs => (dcs.map dchoiceParts).flatten
  | Chunk.malformed => []

/-- All fragments collected over the chunk iteration, in order. -/
def partsOf : List Chunk → List Val
  | [] => []
  | c :: cs => chunkParts c ++ partsOf cs

/-- Keep the fragments only when every one is a string
(`"".join` raises a `TypeError` on any non-string element, which the code
catches, abandoning the streaming stage). -/
def strParts : List Val → Option (List Txt)
  | [] => some []
  | Val.str s :: rest => (strParts rest).map (fun t => s :: t)
  | Val.other _ :: _ => none

/-- Concatenation with no separator, as Python `"".join`. -/
def joinTxt : List Txt → Txt
  | [] => []
  | f :: fs => f ++ joinTxt fs

/-- Stage-3 streaming extraction (`pyspark_generator.py` lines 295-350):
iterate the chunks, collect fragments, and return their separator-free
concatenation; yields nothing when the reply is not iterable, when no
fragment was collected, or when joining raises. -/
def streamingStage (resp : Resp) : Option Txt :=
  match resp.iterChunks with
  | none => none
  | some cs =>
    let parts := partsOf cs
    if parts.isEmpty then none
    else
      match strParts parts with
      | some frags => some (joinTxt frags)
      | none => none

/-- Stage-4 last-resort stringification (`pyspark_generator.py` lines
357-371): return `str(resp)` unless it is empty or begins with an
unresolved-stream marker. -/
def stringifyStage (resp : Resp) : Option Txt :=
  let s := resp.strForm
  if s.isEmpty then none
  else if (("<_StreamingResponse").toList).isPrefixOf s ||
          (("<Stream").toList).isPrefixOf s then none
  else some s

/-- Errors raised by `call_claude_sonnet`. -/
inductive CallErr where
  | credentialMissing
  | extractionFailed
  deriving DecidableEq, Repr

/-- The response normalizer `call_claude_sonnet` (`pyspark_generator.py`
lines 219-376), with the already-returned reply object passed in: reject an
empty token, then run the prioritized fallback chain (standard shape,
text-only shape, streaming iteration, guarded stringification), raising
when every stage yields nothing. -/
def call_claude_sonnet (token : Txt) (resp : Resp) : Except CallErr Txt :=
  if token.isEmpty then Except.error CallErr.credentialMissing
  else
    match stage12 resp with
    | some s => Except.ok s
    | none =>
      match streamingStage resp with
      | some s => Except.ok s
      | none =>
        match stringifyStage resp with
        | some s => Except.ok s
        | none => Except.error CallErr.extractionFailed

/-! ## Mapping CSV parsing and grouping (`read_mapping_csv_from_local`) -/

/-- One mapping row after trimming, with the five expected fields. -/
structure MappingRow where
  st : Txt
  sc : Txt
  tt : Txt
  tc : Txt
  tr : Txt
  deriving DecidableEq, Repr

/-- One column record of a pipeline descriptor
(`pyspark_generator.py` lines 176-181). -/
structure ColMapping where
  source_column : Txt
  target_table : Txt
  target_column : Txt
  transformation : Txt
  deriving DecidableEq, Repr

/-- One pipeline descriptor (`pyspark_generator.py` lines 183-188). -/
structure PipelineDesc where
  pipeline_id : Txt
  source_path_or_table : Txt
  target_table_hint : Txt
  columns : List ColMapping
  deriving DecidableEq, Repr

/-- Errors raised while reading the mapping CSV. -/
inductive CsvErr where
  | missingColumns
  | badRow
  | empty
  deriving DecidableEq, Repr

/-- Split a character list at every occurrence of a separator character. -/
def splitOnChar (sep : Char) : Txt → List Txt
  | [] => [[]]
  | c :: rest =>
    let r := splitOnChar sep rest
    if c == sep then [] :: r
    else
      match r with
      | [] => [[c]]
      | f :: fs => (c :: f) :: fs

/-- `src_tbl.replace(".", "_")` from `pyspark_generator.py` line 184. -/
def normalizeTableId (k : Txt) : Txt :=
  k.map (fun c => if c == ('.' : Char) then ('_' : Char) else c)

/-- The first non-empty `target_table` among a group's rows, or empty
(`pyspark_generator.py` lines 165-174). -/
def firstTarget : List MappingRow → Txt
  | [] => []
  | r :: rs => if r.tt.isEmpty then firstTarget rs else r.tt

/-- Distinct keys in first-appearance order, skipping keys already seen,
modelling the group order of pandas `groupby(..., sort=False)`. -/
def dedupGo (seen : List Txt) : List Txt → List Txt
  | [] => []
  | x :: xs =>
    if seen.contains x then dedupGo seen xs
    else x :: dedupGo (x :: seen) xs

/-- Distinct source tables in first-appearance order. -/
def firstSeen (l : List Txt) : List Txt := dedupGo [] l

/-- Group filtered rows into pipeline descriptors
(`pyspark_generator.py` lines 159-191): one descriptor per distinct
`Source_Table` in first-appearance order, whose columns are that group's
rows in input order. -/
def buildDescriptors (rows : List MappingRow) : List PipelineDesc :=
  (firstSeen (rows.map (fun r => r.st))).map (fun k =>
    let group := rows.filter (fun r => r.st == k)
    { pipeline_id := normalizeTableId k
      source_path_or_table := k
      target_table_hint := firstTarget group
      columns := group.map (fun r =>
        { source_column := r.sc
          target_table := r.tt
          target_column := r.tc
          transformation := r.tr }) })

/-- Field of a data line at a header position: pandas pads a short line
with NaN, which `fillna("")` turns into the empty string; the service then
trims every expected column. -/
def fieldAt (fs : List Txt) (i : Nat) : Txt := pyStrip (fs.getD i [])

/-- Parse one data line against the five header positions: split on the
comma delimiter, reject a line with more fields than the header (pandas
raises a tokenizing error there), pad a short line, and trim each field. -/
def parseLine (nCols idxSt idxSc idxTt idxTc idxTr : Nat) (line : Txt) :
    Except CsvErr MappingRow :=
  let fs := splitOnChar (',' : Char) line
  if nCols < fs.length then Except.error CsvErr.badRow
  else Except.ok
    { st := fieldAt fs idxSt
      sc := fieldAt fs idxSc
      tt := fieldAt fs idxTt
      tc := fieldAt fs idxTc
      tr := fieldAt fs idxTr }

/-- Parse the mapping CSV text (`read_mapping_csv_from_local`,
`pyspark_generator.py` lines 128-157): header line with the five expected
column names located case-sensitively and order-independently (names
trimmed), blank lines skipped, fields trimmed, and rows with an empty
`Source_Table` dropped.  Fields are modelled as unquoted, as in the
mapping schema of the spec. -/
def parseMappingCsv (text : Txt) : Except CsvErr (List MappingRow) :=
  match (splitOnChar ('\n' : Char) text).filter (fun l => !l.isEmpty) with
  | [] => Except.error CsvErr.empty
  | header :: dataLines =>
    let hcols := (splitOnChar (',' : Char) header).map pyStrip
    match hcols.findIdx? (fun c => c == ("Source_Table").toList),
          hcols.findIdx? (fun c => c == ("Source_Column").toList),
          hcols.findIdx? (fun c => c == ("Target_Table").toList),
          hcols.findIdx? (fun c => c == ("Target_Column").toList),
          hcols.findIdx? (fun c => c == ("Transformation").toList) with
    | some iSt, some iSc, some iTt, some iTc, some iTr =>
      (dataLines.mapM (parseLine hcols.length iSt iSc iTt iTc iTr)).map
        (fun rows => rows.filter (fun r => !r.st.isEmpty))
    | _, _, _, _, _ => Except.error CsvErr.missingColumns

/-- `read_mapping_csv_from_local` end to end: parse the CSV text and group
the surviving rows into pipeline descriptors. -/
def read_mapping_csv_from_local (text : Txt) : Except CsvErr (List PipelineDesc) :=
  (parseMappingCsv text).map buildDescriptors

/-! ## Source selection of `generate_pyspark_code` -/

/-- Which mapping source `generate_pyspark_code` reads. -/
inductive MapSource where
  | volume (p : Txt)
  | inline (c : Txt)
  deriving DecidableEq, Repr

/-- Python truthiness of an optional string request field. -/
def truthyOptTxt : Option Txt → Bool
  | none => false
  | some s => !s.isEmpty

/-- The source-selection branch of `generate_pyspark_code`
(`pyspark_generator.py` lines 416-428): a truthy `input_volume_path` wins,
then a truthy `mapping_csv_content`, else an error. -/
def chooseMappingSource (content ivp : Option Txt) : Except Txt MapSource :=
  if truthyOptTxt ivp then Except.ok (MapSource.volume (ivp.getD []))
  else if truthyOptTxt content then Except.ok (MapSource.inline (content.getD []))
  else Except.error (("Either mapping_csv_content or input_volume_path must be provided").toList)

/-! ## The step-traced endpoint (`generate_pyspark_endpoint`) -/

/-- Step status values documented on the `Step` model of
`routers/codegen.py`. -/
inductive Status where
  | pending
  | inProgress
  | completed
  | error
  deriving DecidableEq, Repr

/-- One emitted step entry, recording the full sequence of statuses it went
through (its lifecycle), so temporal claims about transitions can be
stated. -/
structure StepE where
  name : Txt
  history : List Status
  message : Option Txt
  deriving DecidableEq, Repr

/-- A freshly appended step: created directly with status
`in_progress` (`Step(name=..., status="in_progress")`). -/
def mkStep (n : Txt) : StepE :=
  { name := n, history := [Status.inProgress], message := none }

/-- Move the most recent step to a terminal status with a message
(`steps[-1].status = ...; steps[-1].message = ...`). -/
def termLast : List StepE → Status → Txt → List StepE
  | [], _, _ => []
  | [s], st, m => [{ s with history := s.history ++ [st], message := some m }]
  | s :: rest, st, m => s :: termLast rest st m

/-- The request body of the generate endpoint (`GenerateRequest`). -/
structure GenReq where
  source_type : Txt
  input_volume_path : Option Txt
  output_volume_path : Txt
  pattern : Txt
  mapping_csv_content : Option Txt
  deriving DecidableEq, Repr

/-- An HTTPException surfaced by the endpoint. -/
structure HttpErr where
  status_code : Nat
  detail : Txt
  deriving DecidableEq, Repr

/-- The success payload of the endpoint (`GenerateResponse`, steps
returned alongside). -/
structure GenResponse where
  code : Txt
  success : Bool
  deriving DecidableEq, Repr

/-- The generating stage (`routers/codegen.py` lines 108-125): append the
third step, then complete or fail it according to the outcome of
`generate_pyspark_code` (passed in, since the model call is external
I/O). -/
def finishGen (steps : List StepE) (gen : Except Txt Txt) :
    List StepE × Except HttpErr GenResponse :=
  let steps2 := steps ++ [mkStep (("Generating code structure").toList)]
  match gen with
  | Except.ok code =>
    (termLast steps2 Status.completed (("✓ Code generated successfully").toList),
     Except.ok { code := code, success := true })
  | Except.error e =>
    (termLast steps2 Status.error e,
     Except.error { status_code := 500,
                    detail := (("Failed to generate code: ").toList) ++ e })

/-- The generate endpoint (`generate_pyspark_endpoint`,
`routers/codegen.py` lines 35-131), returning the final step trace and
either an HTTP error or the response.  Validation checks run in source
order; the preparing stage prefers the inline CSV content for its message;
the generation outcome is a parameter. -/
def endpointGen (body : GenReq) (gen : Except Txt Txt) :
    List StepE × Except HttpErr GenResponse :=
  let steps0 := [mkStep (("Validating input").toList)]
  if body.source_type == ("jira").toList then
    (termLast steps0 Status.error (("JIRA integration is work in progress").toList),
     Except.error { status_code := 501,
                    detail := (("JIRA integration is not yet implemented. Please use 'volume' source type.").toList) })
  else if !truthyOptTxt body.input_volume_path then
    (termLast steps0 Status.error (("Input volume path is required").toList),
     Except.error { status_code := 400,
                    detail := (("input_volume_path is required").toList) })
  else if body.output_volume_path.isEmpty then
    (termLast steps0 Status.error (("Output volume path is required").toList),
     Except.error { status_code := 400,
                    detail := (("output_volume_path is required").toList) })
  else if !(body.pattern == ("pyspark").toList) then
    (termLast steps0 Status.error (("Only 'pyspark' pattern is currently supported").toList),
     Except.error { status_code := 400,
                    detail := (("Only 'pyspark' pattern is supported").toList) })
  else
    let steps1 := termLast steps0 Status.completed (("Input validated successfully").toList)
    let steps2 := steps1 ++ [mkStep (("Preparing input").toList)]
    if truthyOptTxt body.mapping_csv_content then
      finishGen (termLast steps2 Status.completed (("✓ Using CSV content from request").toList)) gen
    else if truthyOptTxt body.input_volume_path then
      finishGen (termLast steps2 Status.completed
        ((("✓ Input volume path: ").toList) ++ body.input_volume_path.getD [])) gen
    else
      (steps2,
       Except.error { status_code := 400,
                      detail := (("Either mapping_csv_content or input_volume_path must be provided").toList) })

/-- A step whose lifecycle is exactly: created `in_progress`, then one
terminal transition, never touched again. -/
def stepOk (s : StepE) : Bool :=
  s.history == [Status.inProgress, Status.completed] ||
  s.history == [Status.inProgress, Status.error]

/-- A step that completed. -/
def stepDone (s : StepE) : Bool :=
  s.history == [Status.inProgress, Status.completed]

/-! ## Concrete inputs used by counterexamples and witnesses -/

/-- A raw reply on which re-sanitizing strips a second fence layer. -/
def rawTwoFences : Txt := ("abc``````").toList

/-- A raw reply whose trimmed length passes the 40-character check but
whose sanitized text is only 31 characters. -/
def rawFenced31 : Txt :=
  ("```python").toList ++ List.replicate 31 ('x') ++ ("```").toList

/-- The end-to-end mapping CSV of the spec's testable-properties section. -/
def csvTwoRows : Txt :=
  ("Source_Table,Source_Column,Target_Table,Target_Column,Transformation\ncat.sch.tbl1,a,cat.sch.out1,A,a*2\ncat.sch.tbl1,b,cat.sch.out1,B,\n").toList

/-- The descriptor the two-row CSV must produce. -/
def descTwoRows : PipelineDesc :=
  { pipeline_id := ("cat_sch_tbl1").toList
    source_path_or_table := ("cat.sch.tbl1").toList
    target_table_hint := ("cat.sch.out1").toList
    columns :=
      [{ source_column := ("a").toList
         target_table := ("cat.sch.out1").toList
         target_column := ("A").toList
         transformation := ("a*2").toList },
       { source_column := ("b").toList
         target_table := ("cat.sch.out1").toList
         target_column := ("B").toList
         transformation := [] }] }

/-- A three-row CSV whose source tables appear in non-lexicographic order
(`b.t` before `a.t`). -/
def csvThreeRows : Txt :=
  ("Source_Table,Source_Column,Target_Table,Target_Column,Transformation\nb.t,x,tt1,X,\na.t,y,tt2,Y,\nb.t,z,tt1,Z,upper(z)\n").toList

/-- A reply whose first choice carries an empty-string `text` attribute and
whose string form is an unresolved-stream repr: no stage recovers non-empty
text, yet the normalizer returns the empty string instead of raising. -/
def respEmptyText : Resp :=
  { choices := some [{ message := none, text := some (Val.str []) }]
    iterChunks := none
    strForm := ("<Stream object at 0x7f>").toList }

/-- An unconsumed stream handle: iterable but yielding only a chunk whose
processing raises, with a stream-repr string form. -/
def respDeadStream : Resp :=
  { choices := none
    iterChunks := some [Chunk.malformed]
    strForm := ("<_StreamingResponse object at 0x7f>").toList }

/-- A reply exposing both the nested-message shape and the direct-text
shape on its first choice. -/
def respBothShapes : Resp :=
  { choices := some
      [{ message := some { content := some (Val.str (("nested message content, not the direct text").toList)) }
         text := some (Val.str (("direct text field").toList)) }]
    iterChunks := none
    strForm := ("ChatCompletion(...)").toList }

/-- A streaming reply of three delta chunks `A`, `B`, `C` with a malformed
chunk interleaved. -/
def respStreamABC : Resp :=
  { choices := none
    iterChunks := some
      [Chunk.obj [{ deltaContent := some (Val.str (("A").toList)), text := none }],
       Chunk.malformed,
       Chunk.obj [{ deltaContent := some (Val.str (("B").toList)), text := none }],
       Chunk.obj [{ deltaContent := some (Val.str (("C").toList)), text := none }]]
    strForm := ("<Stream object at 0x7f>").toList }

/-- A JIRA-typed request, rejected at the Validating stage. -/
def reqJira : GenReq :=
  { source_type := ("jira").toList
    input_volume_path := none
    output_volume_path := ("/Volumes/c/s/v/out.py").toList
    pattern := ("pyspark").toList
    mapping_csv_content := none }

/-- A request supplying only the inline CSV content, with no input volume
path. -/
def reqInlineOnly : GenReq :=
  { source_type := ("volume").toList
    input_volume_path := none
    output_volume_path := ("/Volumes/c/s/v/out.py").toList
    pattern := ("pyspark").toList
    mapping_csv_content := some csvTwoRows }

/-- A request supplying both the inline CSV content and a volume path. -/
def reqBothSources : GenReq :=
  { source_type := ("volume").toList
    input_volume_path := some (("/Volumes/c/s/v/mapping.csv").toList)
    output_volume_path := ("/Volumes/c/s/v/out.py").toList
    pattern := ("pyspark").toList
    mapping_csv_content := some csvTwoRows }

/-- A generation outcome used where the trace shape, not the code text, is
under study. -/
def genOk : Except Txt Txt := Except.ok (("print(1)").toList)

/-! ## Sanitizer lemmas -/

/-- `trimR` is Mathlib's `rdropWhile`. -/
theorem trimR_eq_rdropWhile (s : Txt) : trimR s = List.rdropWhile isPySpace s := rfl

/-- Stripping is idempotent: the left half leaves no leading whitespace and
the right half, which only shortens from the tail of a left-stripped list,
preserves that. -/
theorem pyStrip_idem (s : Txt) : pyStrip (pyStrip s) = pyStrip s := by
  unfold pyStrip
  rw [trimR_eq_rdropWhile, trimR_eq_rdropWhile]
  set u := s.dropWhile isPySpace with hu
  have hdu : u.dropWhile isPySpace = u := by
    rw [hu]; exact List.dropWhile_idempotent _ _
  have hpre : List.rdropWhile isPySpace u <+: u := List.rdropWhile_prefix _ _
  have hd : (List.rdropWhile isPySpace u).dropWhile isPySpace =
      List.rdropWhile isPySpace u := by
    obtain ⟨t, ht⟩ := hpre
    cases hr : List.rdropWhile isPySpace u with
    | nil => simp
    | cons a t' =>
      rw [hr] at ht
      have hpa : isPySpace a = false := by
        by_contra hcon
        rw [Bool.not_eq_false] at hcon
        rw [← ht, List.cons_append, List.dropWhile_cons_of_pos hcon] at hdu
        have hlen := (List.dropWhile_sublist (l := t' ++ t) isPySpace).length_le
        have hc := congrArg List.length hdu
        simp [List.length_append] at hc hlen
        omega
      rw [List.dropWhile_cons_of_neg (by simp [hpa])]
  rw [hd]
  exact List.rdropWhile_idempotent _ _

/-- A guarded front-drop is the identity when the pattern is not a
prefix. -/
theorem dropLead_no (pat s : Txt) (h : pat.isPrefixOf s = false) :
    dropLead pat s = s := by
  simp [dropLead, h]

/-- A guarded tail-drop is the identity when the pattern is not a
suffix. -/
theorem dropTrail_no (pat s : Txt) (h : pat.isSuffixOf s = false) :
    dropTrail pat s = s := by
  simp [dropTrail, h]

/-- The sanitizer's output is a stripped list. -/
theorem sanitize_pyStrip (x : Txt) : pyStrip (sanitize x) = sanitize x := by
  unfold sanitize
  exact pyStrip_idem _

/-- Sanitizing a stripped, fence-free text is a no-op. -/
theorem sanitize_eq_self (y : Txt) (hy : pyStrip y = y)
    (h9 : (("```python").toList).isPrefixOf y = false)
    (h1 : (("```").toList).isPrefixOf y = false)
    (h2 : (("```").toList).isSuffixOf y = false) :
    sanitize y = y := by
  unfold sanitize
  rw [hy, dropLead_no _ _ h9, dropLead_no _ _ h1, dropTrail_no _ _ h2, hy]

/-- C4 counterexample: the sanitizer is not idempotent.  On the input
`abc` followed by six backticks, one pass leaves `abc` followed by three
backticks, and a second pass strips those as well. -/
theorem sanitize_not_idempotent_on_rawTwoFences :
    sanitize (sanitize rawTwoFences) ≠ sanitize rawTwoFences ∧
    sanitize rawTwoFences = ("abc```").toList ∧
    sanitize (sanitize rawTwoFences) = ("abc").toList := by
  refine ⟨?_, by decide, by decide⟩
  decide

/-- C4 (amended): the output sanitizer is idempotent on every input whose
sanitized form neither begins nor ends with a three-backtick fence marker;
re-sanitizing such already-clean text is a no-op.  (Full idempotence fails:
when stacked fence markers survive the first pass at either end, a second
pass strips another layer.) -/
theorem sanitize_idempotent_of_fence_free (x : Txt)
    (h1 : (("```").toList).isPrefixOf (sanitize x) = false)
    (h2 : (("```").toList).isSuffixOf (sanitize x) = false) :
    sanitize (sanitize x) = sanitize x := by
  have h9 : (("```python").toList).isPrefixOf (sanitize x) = false := by
    by_contra hc
    rw [Bool.not_eq_false, List.isPrefixOf_iff_prefix] at hc
    have h3 : (("```").toList) <+: (("```python").toList) := by decide
    have h4 := List.isPrefixOf_iff_prefix.mpr (h3.trans hc)
    rw [h1] at h4
    exact Bool.false_ne_true h4
  exact sanitize_eq_self _ (sanitize_pyStrip x) h9 h1 h2

/-- Witness for the amended C4 at a fenced python block. -/
theorem sanitize_idempotent_witness :
    sanitize (sanitize (("```python\nprint(1)\n```").toList)) =
      sanitize (("```python\nprint(1)\n```").toList) :=
  sanitize_idempotent_of_fence_free _ (by decide) (by decide)

/-! ## Length-boundary theorems (C5) -/

/-- C5 (amended): each path raises the too-short error exactly at its own
pre-sanitization measure, never one taken after sanitization.  The
`CodeGenerator.generate_from_volume` path raises exactly when the
whitespace-trimmed raw text has fewer than 40 characters (trimmed length 39
raises, trimmed length 40 succeeds), while the `generate_pyspark_code` path
— which strips nothing at all — raises exactly when the untrimmed text has
fewer than 40 characters (length 39 raises, and 39 characters plus a
trailing space succeeds there, although its trimmed length is 39). -/
theorem tooShort_error_boundaries :
    (∀ raw : Txt,
      (generate_from_volume_post raw = Except.error GenErr.tooShort) ↔
        (pyStrip raw).length < 40) ∧
    generate_from_volume_post (List.replicate 39 ('x')) =
      Except.error GenErr.tooShort ∧
    generate_from_volume_post (List.replicate 40 ('x')) =
      Except.ok (List.replicate 40 ('x')) ∧
    (∀ raw : Txt,
      (generate_pyspark_post raw = Except.error GenErr.tooShort) ↔
        raw.length < 40) ∧
    generate_pyspark_post (List.replicate 39 ('x')) =
      Except.error GenErr.tooShort ∧
    generate_pyspark_post (List.replicate 39 ('x') ++ [(' ' : Char)]) =
      Except.ok (List.replicate 39 ('x') ++ [(' ' : Char)]) ∧
    (pyStrip (List.replicate 39 ('x') ++ [(' ' : Char)])).length = 39 := by
  refine ⟨?_, rfl, rfl, ?_, rfl, rfl, by decide⟩
  · intro raw
    by_cases h : (pyStrip raw).length < 40
    · simp [generate_from_volume_post, h]
    · have hemp : raw.isEmpty = false := by
        cases raw with
        | nil => exact absurd (by decide : (pyStrip ([] : Txt)).length < 40) h
        | cons a t => rfl
      simp [generate_from_volume_post, h, hemp]
  · intro raw
    by_cases h : raw.length < 40
    · simp [generate_pyspark_post, MIN_RESPONSE_LEN, h]
    · have hemp : raw.isEmpty = false := by
        cases raw with
        | nil => exact absurd (by decide : ([] : Txt).length < 40) h
        | cons a t => rfl
      simp [generate_pyspark_post, MIN_RESPONSE_LEN, h, hemp]

/-- C5 counterexample: a fenced reply whose trimmed raw length is 43 passes
the check, yet its sanitized text has only 31 characters — so the error is
not raised exactly when the text measured after sanitization is below 40. -/
theorem generate_post_succeeds_with_short_sanitized :
    (sanitize rawFenced31).length = 31 ∧
    generate_from_volume_post rawFenced31 =
      Except.ok (List.replicate 31 ('x')) := by
  exact ⟨by decide, rfl⟩

/-! ## Normalizer theorems (C1, C2, C3) -/

/-- C1 counterexample: a reply whose only recoverable field is an
empty-string `text` attribute and whose string form begins with the
`<Stream` marker.  No stage recovers non-empty text (stages 1-2 recover
only the empty string, streaming does not apply), yet the normalizer
returns the empty string instead of raising the extraction-failure
error. -/
theorem normalizer_returns_empty_not_error :
    call_claude_sonnet (("token").toList) respEmptyText = Except.ok [] ∧
    stage12 respEmptyText = some [] ∧
    (("<Stream").toList).isPrefixOf respEmptyText.strForm = true := by
  exact ⟨rfl, rfl, by decide⟩

/-- C1 (amended): for every reply on which the standard and text-only
stages do not return at all (rather than merely returning nothing
non-empty) and the streaming iteration collects no fragment, if the string
representation begins with an unresolved-stream marker then the normalizer
raises the extraction-failure error rather than returning that string
form. -/
theorem normalizer_raises_on_unresolved_stream (tok : Txt) (resp : Resp)
    (htok : tok.isEmpty = false)
    (h12 : stage12 resp = none)
    (hstream : partsOf (resp.iterChunks.getD []) = [])
    (hmark : (("<_StreamingResponse").toList).isPrefixOf resp.strForm = true ∨
             (("<Stream").toList).isPrefixOf resp.strForm = true) :
    call_claude_sonnet tok resp = Except.error CallErr.extractionFailed := by
  have hs : streamingStage resp = none := by
    unfold streamingStage
    cases hit : resp.iterChunks with
    | none => rfl
    | some cs =>
      rw [hit] at hstream
      simp only [Option.getD_some] at hstream
      simp [hstream]
  have hmarkb : ((("<_StreamingResponse").toList).isPrefixOf resp.strForm ||
      (("<Stream").toList).isPrefixOf resp.strForm) = true := by
    rcases hmark with h | h
    · rw [h]; rfl
    · rw [h, Bool.or_true]
  have hne : resp.strForm.isEmpty = false := by
    cases hsf : resp.strForm with
    | nil =>
      rw [hsf] at hmark
      rcases hmark with h | h <;> exact absurd h (by decide)
    | cons a t => rfl
  have hst : stringifyStage resp = none := by
    simp only [stringifyStage]
    rw [hne, hmarkb]
    rfl
  simp [call_claude_sonnet, htok, h12, hs, hst]

/-- Witness for the amended C1: an unconsumed `_StreamingResponse` handle
yielding only a malformed chunk is rejected with the extraction error. -/
theorem normalizer_raises_witness :
    call_claude_sonnet (("token").toList) respDeadStream =
      Except.error CallErr.extractionFailed :=
  normalizer_raises_on_unresolved_stream (("token").toList) respDeadStream
    rfl rfl rfl (Or.inl (by decide))

/-- C2 (confirmed): when the first choice exposes both a nested message
body with string content and a direct text field, the normalizer returns
the nested message content and never the direct text field. -/
theorem normalizer_prefers_nested_message (tok : Txt) (resp : Resp)
    (first : Choice) (rest : List Choice) (s t : Txt)
    (htok : tok.isEmpty = false)
    (hch : resp.choices = some (first :: rest))
    (hmsg : first.message = some { content := some (Val.str s) })
    (htxt : first.text = some (Val.str t)) :
    call_claude_sonnet tok resp = Except.ok s ∧
    (s ≠ t → call_claude_sonnet tok resp ≠ Except.ok t) := by
  have h12 : stage12 resp = some s := by
    unfold stage12
    rw [hch]
    simp [step1, hmsg]
  have hc : call_claude_sonnet tok resp = Except.ok s := by
    simp [call_claude_sonnet, htok, h12]
  refine ⟨hc, fun hne hcon => ?_⟩
  rw [hc] at hcon
  exact hne (Except.ok.inj hcon)

/-- Witness for C2 at a reply carrying both shapes. -/
theorem normalizer_prefers_nested_message_witness :
    call_claude_sonnet (("token").toList) respBothShapes =
      Except.ok (("nested message content, not the direct text").toList) :=
  (normalizer_prefers_nested_message (("token").toList) respBothShapes
    { message := some { content := some (Val.str (("nested message content, not the direct text").toList)) }
      text := some (Val.str (("direct text field").toList)) }
    [] (("nested message content, not the direct text").toList)
    (("direct text field").toList) rfl rfl rfl rfl).1

/-- C3 (confirmed): for an iterable reply on which the non-streaming stages
yield nothing, the normalizer returns the collected string fragments
concatenated in iteration order with no separator; malformed chunks
contribute nothing and are not fatal. -/
theorem streaming_concatenates_in_order (tok : Txt) (resp : Resp)
    (chunks : List Chunk) (frags : List Txt)
    (htok : tok.isEmpty = false)
    (h12 : stage12 resp = none)
    (hit : resp.iterChunks = some chunks)
    (hstr : strParts (partsOf chunks) = some frags)
    (hne : partsOf chunks ≠ []) :
    call_claude_sonnet tok resp = Except.ok (joinTxt frags) := by
  have hs : streamingStage resp = some (joinTxt frags) := by
    unfold streamingStage
    rw [hit]
    simp [List.isEmpty_iff, hne, hstr]
  simp [call_claude_sonnet, htok, h12, hs]

/-- Witness for C3: three delta chunks `A`, `B`, `C` with a malformed chunk
interleaved yield `ABC`. -/
theorem streaming_concatenates_witness :
    call_claude_sonnet (("token").toList) respStreamABC =
      Except.ok (("ABC").toList) :=
  streaming_concatenates_in_order (("token").toList) respStreamABC
    (respStreamABC.iterChunks.getD [])
    [(("A").toList), (("B").toList), (("C").toList)]
    rfl rfl rfl rfl (by decide)

/-! ## Grouping lemmas (C6) -/

/-- Membership in the first-appearance dedup: an element appears in the
output iff it appears in the remaining input and was not already seen. -/
theorem mem_dedupGo (a : Txt) (l : List Txt) :
    ∀ seen, (a ∈ dedupGo seen l ↔ (a ∈ l ∧ a ∉ seen)) := by
  induction l with
  | nil =>
    intro seen
    simp [dedupGo]
  | cons x xs ih =>
    intro seen
    unfold dedupGo
    by_cases hx : seen.contains x = true
    · rw [if_pos hx, ih seen]
      have hxm : x ∈ seen := List.elem_iff.mp hx
      constructor
      · rintro ⟨h1, h2⟩
        exact ⟨List.mem_cons_of_mem _ h1, h2⟩
      · rintro ⟨h1, h2⟩
        rcases List.mem_cons.mp h1 with h | h
        · subst h
          exact absurd hxm h2
        · exact ⟨h, h2⟩
    · rw [if_neg hx]
      have hxm : x ∉ seen := fun hc => hx (List.elem_iff.mpr hc)
      rw [List.mem_cons, ih (x :: seen)]
      constructor
      · rintro (h | ⟨h1, h2⟩)
        · subst h
          exact ⟨List.mem_cons_self _ _, hxm⟩
        · exact ⟨List.mem_cons_of_mem _ h1,
            fun hx2 => h2 (List.mem_cons_of_mem _ hx2)⟩
      · rintro ⟨h1, h2⟩
        by_cases hax : a = x
        · exact Or.inl hax
        · right
          rcases List.mem_cons.mp h1 with h | h
          · exact absurd h hax
          · exact ⟨h, fun hc => (List.mem_cons.mp hc).elim
              (fun h3 => hax h3) (fun h3 => h2 h3)⟩

/-- The first-appearance dedup never repeats a key. -/
theorem nodup_dedupGo (l : List Txt) : ∀ seen, (dedupGo seen l).Nodup := by
  induction l with
  | nil =>
    intro seen
    simp [dedupGo]
  | cons x xs ih =>
    intro seen
    unfold dedupGo
    by_cases hx : seen.contains x = true
    · rw [if_pos hx]
      exact ih seen
    · rw [if_neg hx]
      refine List.nodup_cons.mpr ⟨fun hc => ?_, ih (x :: seen)⟩
      rcases (mem_dedupGo x xs (x :: seen)).mp hc with ⟨h1, h2⟩
      exact h2 (List.mem_cons_self _ _)

/-- `firstSeen` is duplicate-free. -/
theorem firstSeen_nodup (l : List Txt) : (firstSeen l).Nodup :=
  nodup_dedupGo l []

/-- `firstSeen` covers every element of its input. -/
theorem mem_firstSeen_of_mem {a : Txt} {l : List Txt} (h : a ∈ l) :
    a ∈ firstSeen l :=
  (mem_dedupGo a l []).mpr ⟨h, by simp⟩

/-- Sums distribute over a pointwise sum of two maps. -/
theorem sum_map_add_nat {α : Type} (ks : List α) (f g : α → Nat) :
    (ks.map (fun k => f k + g k)).sum = (ks.map f).sum + (ks.map g).sum := by
  induction ks with
  | nil => rfl
  | cons k t ih =>
    simp only [List.map_cons, List.sum_cons, ih]
    omega

/-- An indicator sums to zero over a list the marked element avoids. -/
theorem sum_map_ite_zero_of_not_mem {α : Type} [DecidableEq α] (a : α)
    (ks : List α) (h : a ∉ ks) :
    (ks.map (fun k => if a = k then 1 else 0)).sum = 0 := by
  induction ks with
  | nil => rfl
  | cons k t ih =>
    have hak : ¬a = k := fun hc => h (hc ▸ List.mem_cons_self _ _)
    simp only [List.map_cons, List.sum_cons, if_neg hak]
    rw [Nat.zero_add]
    exact ih (fun hc => h (List.mem_cons_of_mem _ hc))

/-- An indicator sums to one over a duplicate-free list containing the
marked element. -/
theorem sum_map_ite_one {α : Type} [DecidableEq α] (a : α) (ks : List α)
    (hn : ks.Nodup) (hm : a ∈ ks) :
    (ks.map (fun k => if a = k then 1 else 0)).sum = 1 := by
  induction ks with
  | nil => cases hm
  | cons k t ih =>
    rcases List.nodup_cons.mp hn with ⟨hk, ht⟩
    by_cases hak : a = k
    · subst hak
      rw [List.map_cons, List.sum_cons, sum_map_ite_zero_of_not_mem a t hk]
      simp
    · rcases List.mem_cons.mp hm with h | h
      · exact absurd h hak
      · simp only [List.map_cons, List.sum_cons, if_neg hak]
        rw [ih ht h]

/-- Partition counting: filtering a row list by each key of a
duplicate-free covering key list accounts for every row exactly once. -/
theorem length_eq_sum_filter (l : List MappingRow) (ks : List Txt)
    (hn : ks.Nodup) (hc : ∀ r ∈ l, r.st ∈ ks) :
    (ks.map (fun k => (l.filter (fun r => r.st == k)).length)).sum = l.length := by
  induction l with
  | nil => simp
  | cons r t ih =>
    have hstep : ∀ k : Txt, ((r :: t).filter (fun x => x.st == k)).length =
        (if r.st = k then 1 else 0) + (t.filter (fun x => x.st == k)).length := by
      intro k
      by_cases h : r.st = k
      · simp [List.filter_cons, h]
        omega
      · simp [List.filter_cons, h]
    simp only [hstep]
    rw [sum_map_add_nat, sum_map_ite_one r.st ks hn (hc r (List.mem_cons_self _ _)),
      ih (fun x hx => hc x (List.mem_cons_of_mem _ hx))]
    simp [List.length_cons, Nat.add_comm]

/-- C6 (confirmed): parsing then grouping yields exactly one descriptor per
distinct non-empty source table, the descriptors' column counts sum to the
number of valid rows, and the descriptors appear in first-appearance order
of their source tables. -/
theorem grouping_property (text : Txt) (rows : List MappingRow)
    (hp : parseMappingCsv text = Except.ok rows) :
    (buildDescriptors rows).length =
      (firstSeen (rows.map (fun r => r.st))).length ∧
    ((buildDescriptors rows).map (fun d => d.columns.length)).sum = rows.length ∧
    (buildDescriptors rows).map (fun d => d.source_path_or_table) =
      firstSeen (rows.map (fun r => r.st)) := by
  refine ⟨by simp [buildDescriptors], ?_, ?_⟩
  · have h2 : (buildDescriptors rows).map (fun d => d.columns.length) =
        (firstSeen (rows.map (fun r => r.st))).map
          (fun k => (rows.filter (fun r => r.st == k)).length) := by
      unfold buildDescriptors
      rw [List.map_map]
      refine List.map_congr_left ?_
      intro k hk
      simp
    rw [h2]
    exact length_eq_sum_filter rows (firstSeen (rows.map (fun r => r.st)))
      (firstSeen_nodup _)
      (fun r hr => mem_firstSeen_of_mem (List.mem_map_of_mem _ hr))
  · unfold buildDescriptors
    rw [List.map_map]
    exact List.map_id'' (fun k => by simp) _

/-- The parsed rows of the three-row CSV: tables `b.t`, `a.t`, `b.t` in
input order. -/
def rowsThree : List MappingRow :=
  [{ st := ("b.t").toList, sc := ("x").toList, tt := ("tt1").toList,
     tc := ("X").toList, tr := [] },
   { st := ("a.t").toList, sc := ("y").toList, tt := ("tt2").toList,
     tc := ("Y").toList, tr := [] },
   { st := ("b.t").toList, sc := ("z").toList, tt := ("tt1").toList,
     tc := ("Z").toList, tr := ("upper(z)").toList }]

/-- Witness for C6: three valid rows over two distinct source tables give
two descriptors whose column counts sum to three, listed in
first-appearance (non-lexicographic) order. -/
theorem grouping_property_witness :
    (buildDescriptors rowsThree).length =
      (firstSeen (rowsThree.map (fun r => r.st))).length ∧
    ((buildDescriptors rowsThree).map (fun d => d.columns.length)).sum =
      rowsThree.length ∧
    (buildDescriptors rowsThree).map (fun d => d.source_path_or_table) =
      firstSeen (rowsThree.map (fun r => r.st)) :=
  grouping_property csvThreeRows rowsThree rfl

/-- C7 (confirmed): the spec's end-to-end two-row CSV yields exactly one
descriptor with pipeline id `cat_sch_tbl1` (every dot replaced by an
underscore), target-table hint `cat.sch.out1`, and its two columns in
input order with transformations `a*2` and empty. -/
theorem end_to_end_two_rows :
    read_mapping_csv_from_local csvTwoRows = Except.ok [descTwoRows] := rfl

/-! ## Orchestrator theorems (C8, C9, C10) -/

/-- C8 counterexample: in the JIRA-rejection run the single emitted step's
entire lifecycle is `in_progress` then `error` — no emitted step entry is
ever in the `pending` status, so no entry transitions
`pending → in_progress → terminal`. -/
theorem steps_never_pending :
    ((endpointGen reqJira genOk).1.map (fun s => s.history)) =
      [[Status.inProgress, Status.error]] ∧
    (((endpointGen reqJira genOk).1.map (fun s => s.history)).flatten.contains
        Status.pending) = false := by
  exact ⟨rfl, rfl⟩

/-- C8 (amended): every emitted step entry is created directly
`in_progress` (never observed `pending`) and transitions to exactly one
terminal status, after which it is never modified; every entry before the
last is `completed`, so the first `error` entry ends the trace and all
later stages are absent. -/
theorem steps_terminal_lifecycle (body : GenReq) (gen : Except Txt Txt) :
    (endpointGen body gen).1.all stepOk = true ∧
    ((endpointGen body gen).1.dropLast).all stepDone = true := by
  cases gen with
  | ok c =>
    unfold endpointGen finishGen
    split_ifs with h1 h2 h3 h4 h5 h6
    · exact ⟨rfl, rfl⟩
    · exact ⟨rfl, rfl⟩
    · exact ⟨rfl, rfl⟩
    · exact ⟨rfl, rfl⟩
    · exact ⟨rfl, rfl⟩
    · exact ⟨rfl, rfl⟩
    · exfalso
      cases htr : truthyOptTxt body.input_volume_path with
      | false => exact absurd (by rw [htr]; rfl) h2
      | true => exact absurd htr h6
  | error e =>
    unfold endpointGen finishGen
    split_ifs with h1 h2 h3 h4 h5 h6
    · exact ⟨rfl, rfl⟩
    · exact ⟨rfl, rfl⟩
    · exact ⟨rfl, rfl⟩
    · exact ⟨rfl, rfl⟩
    · exact ⟨rfl, rfl⟩
    · exact ⟨rfl, rfl⟩
    · exfalso
      cases htr : truthyOptTxt body.input_volume_path with
      | false => exact absurd (by rw [htr]; rfl) h2
      | true => exact absurd htr h6

/-- C9: a request supplying only the inline CSV content is rejected at
Validating with `input_volume_path is required`, even though the content is
truthy and the generator's own source selection would accept it — the
router contradicts its own field documentation, which marks the path
optional when the content is provided. -/
theorem inline_only_rejected :
    truthyOptTxt reqInlineOnly.mapping_csv_content = true ∧
    (endpointGen reqInlineOnly genOk).2 =
      Except.error { status_code := 400,
                     detail := ("input_volume_path is required").toList } ∧
    chooseMappingSource reqInlineOnly.mapping_csv_content
        reqInlineOnly.input_volume_path =
      Except.ok (MapSource.inline csvTwoRows) := by
  exact ⟨rfl, rfl, rfl⟩

/-- C10 (confirmed): when both the inline CSV content and a truthy volume
path are supplied, the generator reads from the volume path (the path
takes precedence), while the Preparing step's trace message still reports
that the CSV content from the request is being used. -/
theorem volume_wins_but_message_says_csv (body : GenReq) (gen : Except Txt Txt)
    (h1 : (body.source_type == ("jira").toList) = false)
    (h2 : truthyOptTxt body.input_volume_path = true)
    (h3 : body.output_volume_path.isEmpty = false)
    (h4 : (body.pattern == ("pyspark").toList) = true)
    (h5 : truthyOptTxt body.mapping_csv_content = true) :
    chooseMappingSource body.mapping_csv_content body.input_volume_path =
      Except.ok (MapSource.volume (body.input_volume_path.getD [])) ∧
    (endpointGen body gen).1[1]? =
      some { name := ("Preparing input").toList
             history := [Status.inProgress, Status.completed]
             message := some (("✓ Using CSV content from request").toList) } := by
  constructor
  · simp [chooseMappingSource, h2]
  · have c1 : ¬((body.source_type == ("jira").toList) = true) := by
      rw [h1]; exact Bool.false_ne_true
    have c2 : ¬((!truthyOptTxt body.input_volume_path) = true) := by
      rw [h2]; decide
    have c3 : ¬(body.output_volume_path.isEmpty = true) := by
      rw [h3]; decide
    have c4 : ¬((!(body.pattern == ("pyspark").toList)) = true) := by
      rw [h4]; decide
    unfold endpointGen
    rw [if_neg c1, if_neg c2, if_neg c3, if_neg c4]
    simp only []
    rw [if_pos h5]
    cases gen with
    | ok c => rfl
    | error e => rfl

/-- Witness for C10 at a request carrying both sources. -/
theorem volume_wins_witness :
    chooseMappingSource reqBothSources.mapping_csv_content
        reqBothSources.input_volume_path =
      Except.ok (MapSource.volume (("/Volumes/c/s/v/mapping.csv").toList)) ∧
    (endpointGen reqBothSources genOk).1[1]? =
      some { name := ("Preparing input").toList
             history := [Status.inProgress, Status.completed]
             message := some (("✓ Using CSV content from request").toList) } :=
  volume_wins_but_message_says_csv reqBothSources genOk rfl rfl rfl rfl rfl
